import Mathlib

/-!
Verification of the local-library catalog controllers.

The controllers under verification are `genreController` / `bookController`
(src/unnamed/part_000) and `bookInstanceController`
(src/controllers/bookInstanceController.js), together with the Author schema
declaration bundled with the latter file.  Entities live in a document store;
we embed the store as explicit lists of records and each POST handler as a
function from a store (plus the request data) to a new store and the list of
HTTP responses the handler emits.
-/

namespace LocalLibrary

/-- Opaque document identifiers (ObjectIds travel as strings in forms). -/
abbrev Oid := String

/-- A value of a form field as JavaScript sees it: missing (`undefined`),
a string, a parsed calendar date (produced by the `toDate` sanitizer), or
JavaScript's `Invalid Date` object. -/
inductive JsVal where
  | undef
  | str (s : String)
  | date (y m d : Nat)
  | invalidDate
deriving DecidableEq, Repr

/-- JavaScript truthiness of a form value: `undefined` and the empty string
are falsy, every other value occurring here is truthy. -/
def jsFalsy : JsVal → Bool
  | .undef => true
  | .str s => s == ""
  | .date _ _ _ => false
  | .invalidDate => false

/-- The string view that the validator library takes of a field value;
a missing field is seen as the empty string. -/
def strOf : JsVal → String
  | .str s => s
  | _ => ""

/-- Drop leading whitespace characters from a character list. -/
def dropLeadingWS : List Char → List Char
  | [] => []
  | c :: cs => if c.isWhitespace then dropLeadingWS cs else c :: cs

/-- The `trim()` sanitizer: strip leading and trailing whitespace. -/
def jsTrim (s : String) : String :=
  ⟨((dropLeadingWS (dropLeadingWS s.data).reverse)).reverse⟩

/-- Modelled from the spec: the validator library's markup-escaping of one
character (the library itself is an external collaborator, not part of this
repository).  Ampersand, angle brackets and quotes become HTML entities. -/
def escapeChar (c : Char) : List Char :=
  if c = '&' then "&amp;".data
  else if c = '<' then "&lt;".data
  else if c = '>' then "&gt;".data
  else if c = '"' then "&quot;".data
  else if c = Char.ofNat 39 then "&#x27;".data
  else [c]

/-- Modelled from the spec: the validator library's `escape()` sanitizer,
applied character by character. -/
def escapeHtml (s : String) : String :=
  ⟨s.data.foldr (fun c acc => escapeChar c ++ acc) []⟩

/-- Interpret a run of decimal digits; `none` when empty or non-digit. -/
def natOfDigits : List Char → Option Nat
  | [] => none
  | cs => if cs.all Char.isDigit then
      some (cs.foldl (fun n c => 10 * n + (c.toNat - 48)) 0)
    else none

/-- Split a character list at every dash. -/
def splitDash : List Char → List (List Char)
  | [] => [[]]
  | c :: cs =>
    let r := splitDash cs
    if c = '-' then [] :: r
    else match r with
      | h :: t => (c :: h) :: t
      | [] => [[c]]

/-- Modelled from the spec: the ISO-8601 calendar-date (`YYYY-MM-DD`)
acceptance and parsing performed by the external validator library's
`isISO8601` / `toDate` pair (library code is not part of this repository). -/
def parseISO8601 (s : String) : Option (Nat × Nat × Nat) :=
  match splitDash s.data with
  | [ys, ms, ds] =>
    if ys.length == 4 && ms.length == 2 && ds.length == 2 then
      match natOfDigits ys, natOfDigits ms, natOfDigits ds with
      | some y, some m, some d =>
        if 1 ≤ m && m ≤ 12 && 1 ≤ d && d ≤ 31 then some (y, m, d) else none
      | _, _, _ => none
    else none
  | _ => none

/-- One error recorded by `validationResult` (field plus message), or a
synthetic error object carrying only a message (`field = none`). -/
structure ValidationError where
  field : Option String
  msg : String
deriving DecidableEq, Repr

/-- One link of an express-validator chain: the sanitizers and validators
the controllers use. -/
inductive ChainStep where
  | trim
  | escape
  | isLengthMin (min : Nat)
  | isISO8601
  | toDate
deriving DecidableEq, Repr

/-- Run one chain link on the current value: sanitizers rewrite the value,
validators leave it and may record an error carrying the chain's message. -/
def runStep (field msg : String) (v : JsVal) : ChainStep → JsVal × List ValidationError
  | .trim => (.str (jsTrim (strOf v)), [])
  | .escape => (.str (escapeHtml (strOf v)), [])
  | .isLengthMin min =>
    (v, if min ≤ (strOf v).data.length then [] else [⟨some field, msg⟩])
  | .isISO8601 =>
    (v, if (parseISO8601 (strOf v)).isSome then [] else [⟨some field, msg⟩])
  | .toDate =>
    (match parseISO8601 (strOf v) with
     | some (y, m, d) => .date y m d
     | none => .invalidDate, [])

/-- Run a whole validation chain `body(field, msg). ... `.  When the chain is
marked `optional({ checkFalsy: true })` and the incoming value is falsy, the
entire chain is skipped: no error is recorded and the value is untouched. -/
def runChain (field msg : String) (optFalsy : Bool) (steps : List ChainStep)
    (v : JsVal) : JsVal × List ValidationError :=
  if optFalsy && jsFalsy v then (v, [])
  else steps.foldl
    (fun acc st =>
      let r := runStep field msg acc.1 st
      (r.1, acc.2 ++ r.2)) (v, [])

/-- `body('name', 'Genre name required').trim().isLength({ min: 1 }).escape()`,
the chain both Genre POST handlers install. -/
def genreNameChain (v : JsVal) : JsVal × List ValidationError :=
  runChain "name" "Genre name required" false [.trim, .isLengthMin 1, .escape] v

/-- The sanitized name a Genre POST handler reads back from `req.body.name`. -/
def sanitizedName (v : JsVal) : String := strOf (genreNameChain v).1

/-- `body('due_back', 'Invalid date').optional({ checkFalsy: true })
.isISO8601().toDate()`, from the BookInstance create handler. -/
def dueBackChain (v : JsVal) : JsVal × List ValidationError :=
  runChain "due_back" "Invalid date" true [.isISO8601, .toDate] v

/-- A stored Genre document: a name and the assigned identifier. -/
structure Genre where
  _id : Oid
  name : String
deriving DecidableEq, Repr

/-- Modelled from the spec (the Genre model file is not under src/): the
derived canonical URL path built from the identifier, in the same shape as
the Author model's `/catalog/author/<id>` virtual. -/
def Genre.url (g : Genre) : String := "/catalog/genre/" ++ g._id

/-- A stored Author document (model declared at the end of
src/controllers/bookInstanceController.js). -/
structure Author where
  _id : Oid
  first_name : String
  family_name : String
deriving DecidableEq, Repr

/-- A stored Book document; `genre` is the array of Genre references the
schema declares. -/
structure Book where
  _id : Oid
  title : String
  author : Oid
  summary : String
  isbn : String
  genre : List Oid
deriving DecidableEq, Repr

/-- Modelled from the spec (the Book model file is not under src/): the
derived canonical URL path built from the identifier. -/
def Book.url (b : Book) : String := "/catalog/book/" ++ b._id

/-- A stored BookInstance document.  `due_back` keeps the JavaScript value
the create handler stored (missing, a parsed date, or a raw string). -/
structure BookInstance where
  _id : Oid
  book : Oid
  imprint : String
  status : String
  due_back : JsVal
deriving DecidableEq, Repr

/-- Modelled from the spec (the BookInstance model file is not under src/):
the derived canonical URL path built from the identifier. -/
def BookInstance.url (i : BookInstance) : String := "/catalog/bookinstance/" ++ i._id

/-- The document store the controllers mutate: one collection per entity. -/
structure Store where
  genres : List Genre
  books : List Book
  instances : List BookInstance
  authors : List Author
deriving DecidableEq, Repr

/-- A response a handler emits: a redirect or a render of a named view with
its data payload.  `send` covers the not-implemented stubs;
`runtimeError` marks a path that dereferences `null` (a thrown TypeError). -/
inductive Response where
  | redirect (path : String)
  | renderGenreForm (title : String) (genre : Option Genre) (errors : List ValidationError)
  | renderGenreDelete (genre : Option Genre) (books : List (Book × Option Author))
  | renderBookForm (title : String) (authors : List Author) (genres : List Genre)
      (book : Book) (errors : List ValidationError)
  | renderBookDelete (title : String) (book : Option Book) (instances : List BookInstance)
  | renderBIForm (bookChoices : List Book) (selected : String)
      (errors : List ValidationError) (inst : BookInstance)
  | renderBIDelete (title : String) (inst : Option BookInstance)
  | send (msg : String)
  | runtimeError
deriving DecidableEq, Repr

/-! ## Genre controller -/

/-- `genre_create_post`: run the name chain, build the candidate
`new Genre({ name })` (with the client-generated fresh id), re-render on
validation errors, otherwise redirect to an existing genre of the same name
(`findOne({ name })`) or save the candidate and redirect to it. -/
def genre_create_post (store : Store) (freshId : Oid) (rawName : JsVal) :
    Store × Response :=
  let r := genreNameChain rawName
  let name := strOf r.1
  let genre : Genre := ⟨freshId, name⟩
  if r.2 ≠ [] then
    (store, .renderGenreForm "Create Genre" (some genre) r.2)
  else
    match store.genres.find? (fun g => g.name == name) with
    | some found => (store, .redirect found.url)
    | none => ({ store with genres := store.genres ++ [genre] }, .redirect genre.url)

/-- The message of the synthetic conflict error built in `genre_update_post`
(`new Error()` with `error.msg` assigned, so it carries no field). -/
def genreConflictError : ValidationError := ⟨none, "A genre with this name already exists!"⟩

/-- `genre_update_post`: run the name chain, build the candidate with the
original id (`new Genre({ name, _id: id })`), re-render on validation errors;
otherwise `findOne({ name })` — if any genre carries the submitted name,
re-fetch the original by id and re-render with the single synthetic conflict
error; otherwise `findByIdAndUpdate(id, genre)` and redirect to the
(pre-update) document's url. -/
def genre_update_post (store : Store) (id : Oid) (rawName : JsVal) :
    Store × Response :=
  let r := genreNameChain rawName
  let name := strOf r.1
  let genre : Genre := ⟨id, name⟩
  if r.2 ≠ [] then
    (store, .renderGenreForm "Update Genre" (some genre) r.2)
  else
    match store.genres.find? (fun g => g.name == name) with
    | some _found =>
      (store, .renderGenreForm "Update Genre"
        (store.genres.find? (fun g => g._id == id)) [genreConflictError])
    | none =>
      match store.genres.find? (fun g => g._id == id) with
      | some old =>
        ({ store with genres := store.genres.map (fun g => if g._id == id then genre else g) },
         .redirect old.url)
      | none => (store, .runtimeError)

/-- `genre_delete_post`: `findByIdAndRemove(genre_id)` then redirect to the
genre list — no check of any kind on Books referencing the genre. -/
def genre_delete_post (store : Store) (genre_id : Oid) : Store × Response :=
  ({ store with genres := store.genres.filter (fun g => !(g._id == genre_id)) },
   .redirect "/catalog/genres")

/-- `genre_delete_get`: fetch the genre and the Books whose `genre` array
contains the id (with authors resolved), then render unconditionally —
there is no null check and no redirect. -/
def genre_delete_get (store : Store) (id : Oid) : List Response :=
  [.renderGenreDelete (store.genres.find? (fun g => g._id == id))
    ((store.books.filter (fun b => b.genre.contains id)).map
      (fun b => (b, store.authors.find? (fun a => a._id == b.author))))]

/-! ## Book controller -/

/-- The raw genre selection arriving in `req.body.genre` of a Book form:
absent, a single scalar, or an array of references. -/
inductive GenreField where
  | absent
  | scalar (s : String)
  | arr (refs : List String)
deriving DecidableEq, Repr

/-- The raw body of a Book create/update POST. -/
structure BookForm where
  title : JsVal
  author : JsVal
  summary : JsVal
  isbn : JsVal
  genre : GenreField
deriving DecidableEq, Repr

/-- The array value the first middleware of `book_create_post` /
`book_update_post` computes into its local variable `genre`:
`if (!Array.isArray(genre)) genre = typeof genre === 'undefined' ? [] : [genre]`. -/
def genreMiddlewareLocal : GenreField → List String
  | .absent => []
  | .scalar s => [s]
  | .arr l => l

/-- The effect of that middleware on `req.body`: `let { genre } = req.body`
copies the field into a local variable, the conditional reassigns only that
local, and `next()` is called without ever writing back, so `req.body` is
returned exactly as it came in. -/
def convertGenreToArray (b : BookForm) : BookForm := b

/-- The genre value the validation stage (`body('genre.*').escape()`) and the
final handler (`const { ..., genre } = req.body`) read: `req.body.genre`
after the conversion middleware has run. -/
def bookValidationGenreInput (b : BookForm) : GenreField :=
  (convertGenreToArray b).genre

/-- `body('genre.*').escape()`: the wildcard expands over the elements of an
array value and escapes each one; a scalar or missing value has no
sub-fields, so nothing is sanitized. -/
def genreWildcardEscape : GenreField → GenreField
  | .arr l => .arr (l.map escapeHtml)
  | g => g

/-- Modelled from the spec (the Book model file is not under src/): the
storage layer casts the value assigned to the `genre` array path to an array
of references, wrapping a bare scalar. -/
def castGenreRefs : GenreField → List Oid
  | .absent => []
  | .scalar s => [s]
  | .arr l => l

/-- The candidate `new Book({ title, author, summary, isbn, genre, _id: id })`
built by `book_update_post` from the sanitized fields; its genre value is
`typeof genre === 'undefined' ? [] : genre` (cast by the storage layer). -/
def bookUpdateCandidate (id : Oid) (b : BookForm) : Book :=
  { _id := id
    title := strOf (runChain "title" "Title must not be empty." false
      [.trim, .isLengthMin 1, .escape] b.title).1
    author := strOf (runChain "author" "Author must not be empty." false
      [.trim, .isLengthMin 1, .escape] b.author).1
    summary := strOf (runChain "summary" "Summary must not be empty." false
      [.trim, .isLengthMin 1, .escape] b.summary).1
    isbn := strOf (runChain "isbn" "ISBN must not be empty." false
      [.trim, .isLengthMin 1, .escape] b.isbn).1
    genre := castGenreRefs (match genreWildcardEscape (bookValidationGenreInput b) with
      | .absent => .arr []
      | g => g) }

/-- The ordered error list `validationResult(req)` collects for a Book
update submission (chains run in registration order and never
short-circuit). -/
def bookUpdateErrors (b : BookForm) : List ValidationError :=
  (runChain "title" "Title must not be empty." false
    [.trim, .isLengthMin 1, .escape] b.title).2
  ++ (runChain "author" "Author must not be empty." false
    [.trim, .isLengthMin 1, .escape] b.author).2
  ++ (runChain "summary" "Summary must not be empty." false
    [.trim, .isLengthMin 1, .escape] b.summary).2
  ++ (runChain "isbn" "ISBN must not be empty." false
    [.trim, .isLengthMin 1, .escape] b.isbn).2

/-- `book_update_post`: conversion middleware, validation chains, candidate
with the original id; re-render the form (with all authors and genres
re-fetched) on validation errors, otherwise `findByIdAndUpdate(id, book)`
and redirect to the (pre-update) document's url. -/
def book_update_post (store : Store) (id : Oid) (b : BookForm) :
    Store × Response :=
  let errors := bookUpdateErrors b
  let book := bookUpdateCandidate id b
  if errors ≠ [] then
    (store, .renderBookForm "Update Book" store.authors store.genres book errors)
  else
    match store.books.find? (fun x => x._id == id) with
    | some old =>
      ({ store with books := store.books.map (fun x => if x._id == id then book else x) },
       .redirect old.url)
    | none => (store, .runtimeError)

/-- `book_delete_post`: fetch the book and its BookInstances in parallel;
if any instances exist, render the delete-confirmation view and stop;
otherwise `findByIdAndRemove(book_id)` and redirect to the book list. -/
def book_delete_post (store : Store) (book_id : Oid) : Store × Response :=
  let book := store.books.find? (fun b => b._id == book_id)
  let book_instances := store.instances.filter (fun i => i.book == book_id)
  if book_instances.length > 0 then
    (store, .renderBookDelete "Delete" book book_instances)
  else
    ({ store with books := store.books.filter (fun b => !(b._id == book_id)) },
     .redirect "/catalog/books")

/-- `book_delete_get`: fetch the book and its instances; when the book is
missing the handler calls `res.redirect('/catalog/books')` but does not
return, so execution falls through and `res.render('book_delete', ...)` is
issued as well — the emitted responses are listed in order. -/
def book_delete_get (store : Store) (id : Oid) : List Response :=
  let book := store.books.find? (fun b => b._id == id)
  let book_instances := store.instances.filter (fun i => i.book == id)
  (if book.isNone then [Response.redirect "/catalog/books"] else [])
    ++ [Response.renderBookDelete "Delete Book" book book_instances]

/-! ## BookInstance controller -/

/-- The raw body of a BookInstance create POST. -/
structure BIForm where
  book : JsVal
  imprint : JsVal
  status : JsVal
  due_back : JsVal
deriving DecidableEq, Repr

/-- The candidate `new BookInstance({ book, imprint, status, due_back })`
built from the sanitized field values. -/
def bookinstanceCandidate (freshId : Oid) (f : BIForm) : BookInstance :=
  { _id := freshId
    book := strOf (runChain "book" "Book must be specified" false
      [.trim, .isLengthMin 1, .escape] f.book).1
    imprint := strOf (runChain "imprint" "Imprint must be specified" false
      [.trim, .isLengthMin 1, .escape] f.imprint).1
    status := strOf (runChain "status" "" false [.escape] f.status).1
    due_back := (dueBackChain f.due_back).1 }

/-- The ordered error list for a BookInstance create submission (the
`status` chain has no validator and contributes none). -/
def bookinstanceCreateErrors (f : BIForm) : List ValidationError :=
  (runChain "book" "Book must be specified" false
    [.trim, .isLengthMin 1, .escape] f.book).2
  ++ (runChain "imprint" "Imprint must be specified" false
    [.trim, .isLengthMin 1, .escape] f.imprint).2
  ++ (dueBackChain f.due_back).2

/-- `bookinstance_create_post`: run the four chains, build the candidate;
re-render the form (with the book list re-fetched) on errors, otherwise save
and redirect to the new record. -/
def bookinstance_create_post (store : Store) (freshId : Oid) (f : BIForm) :
    Store × Response :=
  let errors := bookinstanceCreateErrors f
  let inst := bookinstanceCandidate freshId f
  if errors ≠ [] then
    (store, .renderBIForm store.books inst.book errors inst)
  else
    ({ store with instances := store.instances ++ [inst] }, .redirect inst.url)

/-- `bookinstance_delete_get`: fetch the instance; when it is missing the
handler calls `res.redirect('/catalog/bookinstances')` without returning, so
the unconditional `res.render('bookinstance_delete', ...)` below it is
issued as well. -/
def bookinstance_delete_get (store : Store) (id : Oid) : List Response :=
  let inst := store.instances.find? (fun i => i._id == id)
  (if inst.isNone then [Response.redirect "/catalog/bookinstances"] else [])
    ++ [Response.renderBIDelete "Delete Book Instance" inst]

/-- `bookinstance_update_post` is a stub: it sends a fixed string and
touches nothing. -/
def bookinstance_update_post (store : Store) (_id : Oid) : Store × Response :=
  (store, .send "NOT IMPLEMENTED: BookInstance update POST")

/-! ## Author name virtual -/

/-- The fields visible through the JavaScript `this` inside the `name`
virtual getter.  The getter is declared with an arrow function, so `this` is
the enclosing CommonJS module context (`module.exports`), not the document
the virtual is read on. -/
structure JsThisCtx where
  first_name : Option String
  family_name : Option String
deriving DecidableEq, Repr

/-- The module-level `this` that the arrow function captures: the module's
export object, which has no `first_name` or `family_name` property. -/
def moduleExportsCtx : JsThisCtx := ⟨none, none⟩

/-- Truthiness of a possibly-missing string property. -/
def truthyProp : Option String → Bool
  | none => false
  | some s => !(s == "")

/-- The body of the `name` getter: return
"family, first" when `this.first_name && this.family_name` is truthy, else
return the empty string. -/
def authorNameGetterBody (this : JsThisCtx) : String :=
  if truthyProp this.first_name && truthyProp this.family_name then
    this.family_name.getD "" ++ ", " ++ this.first_name.getD ""
  else ""

/-- The value `author.name` actually produces on a document: the arrow
function ignores the document and evaluates its body against the captured
module context. -/
def author_name (_a : Author) : String := authorNameGetterBody moduleExportsCtx

/-- Modelled from the spec: the derived name the spec describes —
"family_name, first_name" when both fields are present, else the empty
string.  (This is what the getter body would produce were `this` the
document.) -/
def spec_author_name (a : Author) : String :=
  authorNameGetterBody ⟨some a.first_name, some a.family_name⟩

/-! ## List operations -/

/-- Byte-wise (code-point) lexicographic order on character lists, the order
the document store uses for an ascending sort on a string field. -/
def lexLe : List Char → List Char → Bool
  | [], _ => true
  | _ :: _, [] => false
  | a :: as, b :: bs =>
    if a.toNat < b.toNat then true
    else if b.toNat < a.toNat then false
    else lexLe as bs

/-- Lexicographic order on strings. -/
def strLe (a b : String) : Bool := lexLe a.data b.data

/-- Insert an element into a list sorted ascending on a string key. -/
def insertByKey (key : α → String) (x : α) : List α → List α
  | [] => [x]
  | y :: ys => if strLe (key x) (key y) then x :: y :: ys else y :: insertByKey key x ys

/-- Sort a list ascending on a string key (the `sort` the list endpoints
request from the store). -/
def sortByKey (key : α → String) (l : List α) : List α :=
  l.foldr (insertByKey key) []

/-- Adjacent-pair sortedness on a string key. -/
def isSortedBy (key : α → String) : List α → Bool
  | [] => true
  | [_] => true
  | x :: y :: t => strLe (key x) (key y) && isSortedBy key (y :: t)

/-- `genre_list`: `Genre.find().sort([['name', 'ascending']])`. -/
def genre_list (store : Store) : List Genre :=
  sortByKey Genre.name store.genres

/-- `book_list`: `Book.find({}, 'title author').sort({ title: 1 })
.populate('author')` — books sorted ascending by title, each paired with its
resolved author document. -/
def book_list (store : Store) : List (Book × Option Author) :=
  (sortByKey Book.title store.books).map
    (fun b => (b, store.authors.find? (fun a => a._id == b.author)))

/-- `bookinstance_list`: `BookInstance.find().populate('book')` — no sort is
requested; instances come back in store order, each paired with its resolved
book document. -/
def bookinstance_list (store : Store) : List (BookInstance × Option Book) :=
  store.instances.map (fun i => (i, store.books.find? (fun b => b._id == i.book)))

/-! ## Concrete fixtures used to evaluate the handlers -/

/-- A store holding the single genre "Fiction". -/
def storeFiction : Store := ⟨[⟨"g1", "Fiction"⟩], [], [], []⟩

/-- A store holding two genres with distinct names. -/
def storeTwoGenres : Store := ⟨[⟨"g1", "Fiction"⟩, ⟨"g2", "Horror"⟩], [], [], []⟩

/-- A store with one genre, one author and one book, and no instances. -/
def storeOneBook : Store :=
  ⟨[⟨"g1", "Old"⟩],
   [⟨"b1", "Old Title", "a1", "Old summary", "1234567890", ["g1"]⟩],
   [],
   [⟨"a1", "John", "Doe"⟩]⟩

/-- A store with one book that has one BookInstance referencing it. -/
def storeBookWithInstance : Store :=
  ⟨[], [⟨"b1", "T", "a1", "S", "1234567890", []⟩],
   [⟨"i1", "b1", "Imp", "Available", .undef⟩], []⟩

/-- The empty store. -/
def storeEmpty : Store := ⟨[], [], [], []⟩

/-- A store whose single genre is referenced by an existing book. -/
def storeGenreReferenced : Store :=
  ⟨[⟨"g1", "SciFi"⟩], [⟨"b1", "T", "a1", "S", "1234567890", ["g1"]⟩], [], []⟩

/-- A store whose two instances arrive in an order that is strictly
descending in every display field (identifier, imprint, status, due date,
and the referenced book's title). -/
def storeUnsortedInstances : Store :=
  ⟨[],
   [⟨"b1", "aaa", "a1", "S", "1234567890", []⟩,
    ⟨"b2", "zzz", "a1", "S", "1234567890", []⟩],
   [⟨"i9", "b2", "zeta", "Maintenance", .date 2024 1 1⟩,
    ⟨"i1", "b1", "alpha", "Available", .date 2020 1 1⟩],
   []⟩

/-- A Book form carrying a single bare genre selection. -/
def bookFormScalar : BookForm :=
  ⟨.str "T", .str "a1", .str "S", .str "1234567890", .scalar "g1"⟩

/-- A Book form whose fields all pass the update validation chains. -/
def bookFormValid : BookForm :=
  ⟨.str "New Title", .str "a1", .str "New summary", .str "1234567890", .arr ["g1"]⟩

/-- A BookInstance form with valid book/imprint and an empty due date. -/
def biFormEmptyDue : BIForm :=
  ⟨.str "b1", .str "Imp", .str "Available", .str ""⟩

/-- Whether the first element of a list (if any) is at or above `y` in the
key order; used to state the insertion-sort invariant. -/
def leHead (key : α → String) (y : α) : List α → Bool
  | [] => true
  | z :: _ => strLe (key y) (key z)

/-! ## Helper lemmas -/

theorem lexLe_total (a : List Char) : ∀ b : List Char,
    lexLe a b = false → lexLe b a = true := by
  induction a with
  | nil => intro b h; simp [lexLe] at h
  | cons x xs ih =>
    intro b h
    cases b with
    | nil => simp [lexLe]
    | cons y ys =>
      simp only [lexLe] at h ⊢
      by_cases h1 : x.toNat < y.toNat
      · simp [h1] at h
      · by_cases h2 : y.toNat < x.toNat
        · simp [h1, h2]
        · simp [h1, h2] at h ⊢
          exact ih ys h

theorem strLe_total (a b : String) (h : strLe a b = false) : strLe b a = true :=
  lexLe_total a.data b.data h

theorem isSortedBy_cons (key : α → String) (y : α) (l : List α) :
    isSortedBy key (y :: l) = (leHead key y l && isSortedBy key l) := by
  cases l <;> simp [isSortedBy, leHead]

theorem leHead_insertByKey (key : α → String) (x y : α) (l : List α)
    (hyx : strLe (key y) (key x) = true) (hl : leHead key y l = true) :
    leHead key y (insertByKey key x l) = true := by
  cases l with
  | nil => simpa [insertByKey, leHead] using hyx
  | cons z t =>
    by_cases h : strLe (key x) (key z)
    · simpa [insertByKey, leHead, h] using hyx
    · simpa [insertByKey, leHead, h] using hl

theorem isSortedBy_insertByKey (key : α → String) (x : α) (l : List α)
    (h : isSortedBy key l = true) :
    isSortedBy key (insertByKey key x l) = true := by
  induction l with
  | nil => simp [insertByKey, isSortedBy]
  | cons y ys ih =>
    rw [isSortedBy_cons, Bool.and_eq_true] at h
    obtain ⟨hhead, hys⟩ := h
    by_cases hxy : strLe (key x) (key y)
    · rw [insertByKey, if_pos hxy, isSortedBy_cons, isSortedBy_cons,
        Bool.and_eq_true, Bool.and_eq_true]
      exact ⟨by simp [leHead, hxy], hhead, hys⟩
    · have hfalse : strLe (key x) (key y) = false := by simpa using hxy
      rw [insertByKey, if_neg hxy, isSortedBy_cons, Bool.and_eq_true]
      exact ⟨leHead_insertByKey key x y ys (strLe_total _ _ hfalse) hhead, ih hys⟩

theorem isSortedBy_sortByKey (key : α → String) (l : List α) :
    isSortedBy key (sortByKey key l) = true := by
  induction l with
  | nil => rfl
  | cons x xs ih => exact isSortedBy_insertByKey key x _ ih

theorem insertByKey_perm (key : α → String) (x : α) (l : List α) :
    (insertByKey key x l).Perm (x :: l) := by
  induction l with
  | nil => simp [insertByKey]
  | cons y ys ih =>
    by_cases h : strLe (key x) (key y)
    · rw [insertByKey, if_pos h]
    · rw [insertByKey, if_neg h]
      exact (ih.cons y).trans (List.Perm.swap x y ys)

theorem sortByKey_perm (key : α → String) (l : List α) :
    (sortByKey key l).Perm l := by
  induction l with
  | nil => rfl
  | cons x xs ih =>
    exact ((insertByKey_perm key x (sortByKey key xs)).trans (ih.cons x))

theorem isSortedBy_map (key : β → String) (f : α → β) :
    ∀ l : List α, isSortedBy key (l.map f) = isSortedBy (fun x => key (f x)) l
  | [] => rfl
  | [_] => rfl
  | x :: y :: t => by
    simp only [List.map, isSortedBy]
    rw [show (f y :: t.map f) = (y :: t).map f from rfl, isSortedBy_map key f (y :: t)]

theorem find?_eq_none_of_any_eq_false (p : α → Bool) (l : List α)
    (h : l.any p = false) : l.find? p = none := by
  rw [List.find?_eq_none]
  intro x hx hpx
  have : l.any p = true := List.any_eq_true.mpr ⟨x, hx, hpx⟩
  rw [h] at this
  exact Bool.false_ne_true this

/-! ## Claims -/

/-- C1: the claim says the submitted genre field is normalized to a sequence
before any validation rule runs, so that validation and the candidate Book
always see a sequence.  The conversion middleware of `book_create_post` and
`book_update_post` computes the normalized array only into a destructured
local variable and never writes it back to `req.body`, so for a single bare
selection the validation stage still sees the bare scalar, and for a missing
selection it still sees the absent value. -/
theorem genre_field_not_normalized_before_validation :
    bookValidationGenreInput bookFormScalar = GenreField.scalar "g1"
    ∧ genreMiddlewareLocal (GenreField.scalar "g1") = ["g1"]
    ∧ (∀ b : BookForm, convertGenreToArray b = b)
    ∧ bookValidationGenreInput { bookFormScalar with genre := GenreField.absent }
        = GenreField.absent :=
  ⟨rfl, rfl, fun _ => rfl, rfl⟩

/-- C3 counterexample: resubmitting a genre's own unchanged name does take
the conflict path.  With the store holding only ⟨g1, "Fiction"⟩, updating g1
with the name "Fiction" re-renders the form with the single synthetic
conflict error and leaves the store unchanged, instead of persisting and
redirecting. -/
theorem genre_update_own_name_takes_conflict_path :
    genre_update_post storeFiction "g1" (.str "Fiction")
      = (storeFiction,
         .renderGenreForm "Update Genre" (some ⟨"g1", "Fiction"⟩) [genreConflictError])
    ∧ (genre_update_post storeFiction "g1" (.str "Fiction")).1 = storeFiction := by
  decide

/-- C6: the claim says the derived Author name is "family_name, first_name"
when both names are present.  The `name` virtual getter is declared with an
arrow function, so its `this` is the module's export object rather than the
document; both property reads yield `undefined`, the truthiness test fails,
and the getter returns the empty string for every author — including one
with both names present, where the spec's derivation would give
"Doe, John". -/
theorem author_name_virtual_always_empty :
    author_name ⟨"a1", "John", "Doe"⟩ = ""
    ∧ spec_author_name ⟨"a1", "John", "Doe"⟩ = "Doe, John"
    ∧ (∀ a : Author, author_name a = "") :=
  ⟨rfl, by decide, fun _ => rfl⟩

/-- C9: the claim says a delete request for a missing entity issues the
list-view redirect and no other response.  The delete GET handlers redirect
without returning, so the unconditional render below runs as well: on the
empty store, `book_delete_get` and `bookinstance_delete_get` each emit two
responses (the redirect followed by a render of the delete view with a null
entity).  The delete POST handlers, in contrast, do behave as claimed:
removing a missing id leaves the store unchanged and issues only the
redirect. -/
theorem delete_get_missing_entity_emits_second_response :
    book_delete_get storeEmpty "nope"
      = [.redirect "/catalog/books", .renderBookDelete "Delete Book" none []]
    ∧ (book_delete_get storeEmpty "nope").length = 2
    ∧ bookinstance_delete_get storeEmpty "nope"
      = [.redirect "/catalog/bookinstances", .renderBIDelete "Delete Book Instance" none]
    ∧ book_delete_post storeEmpty "nope" = (storeEmpty, .redirect "/catalog/books")
    ∧ genre_delete_post storeEmpty "nope" = (storeEmpty, .redirect "/catalog/genres") := by
  decide

/-- C7 counterexample: the BookInstance list endpoint issues no sort.  On a
store whose two instances are stored in an order strictly descending in
every display field, the returned list preserves store order and is not
ascending in the imprint, the status, the resolved book title, or the
identifier. -/
theorem bookinstance_list_not_sorted :
    isSortedBy (fun p => p.1.imprint) (bookinstance_list storeUnsortedInstances) = false
    ∧ isSortedBy (fun p => p.1.status) (bookinstance_list storeUnsortedInstances) = false
    ∧ isSortedBy (fun p => (p.2.map Book.title).getD "") (bookinstance_list storeUnsortedInstances) = false
    ∧ isSortedBy (fun p => p.1._id) (bookinstance_list storeUnsortedInstances) = false
    ∧ (bookinstance_list storeUnsortedInstances).map Prod.fst
        = storeUnsortedInstances.instances := by
  decide

/-- C7 (amended): the Genre list is sorted ascending by name, the Book list
is sorted ascending by title with each book's author reference resolved, and
the BookInstance list resolves each instance's book reference but performs
no sort — instances are returned in store order. -/
theorem list_reads_sorted_and_resolved (store : Store) :
    isSortedBy Genre.name (genre_list store) = true
    ∧ (genre_list store).Perm store.genres
    ∧ isSortedBy (fun p => p.1.title) (book_list store) = true
    ∧ ((book_list store).map Prod.fst).Perm store.books
    ∧ (book_list store).all
        (fun p => decide (p.2 = store.authors.find? (fun a => a._id == p.1.author))) = true
    ∧ (bookinstance_list store).map Prod.fst = store.instances
    ∧ (bookinstance_list store).all
        (fun p => decide (p.2 = store.books.find? (fun b => b._id == p.1.book))) = true := by
  refine ⟨isSortedBy_sortByKey _ _, sortByKey_perm _ _, ?_, ?_, ?_, ?_, ?_⟩
  · rw [book_list, isSortedBy_map]
    exact isSortedBy_sortByKey _ _
  · have h : (book_list store).map Prod.fst = sortByKey Book.title store.books := by
      simp [book_list, List.map_map, Function.comp_def]
    rw [h]
    exact sortByKey_perm _ _
  · rw [List.all_eq_true]
    intro p hp
    obtain ⟨b, _, rfl⟩ := List.mem_map.mp hp
    simp
  · simp [bookinstance_list, List.map_map, Function.comp_def]
  · rw [List.all_eq_true]
    intro p hp
    obtain ⟨i, _, rfl⟩ := List.mem_map.mp hp
    simp

/-- C4: the Book delete POST checks dependents first — if any BookInstance
references the book, the store (book and instances included) is left exactly
as it was and the delete-confirmation view is rendered listing those
instances; with no referencing instances the book is removed and the
response is the redirect to the book list. -/
theorem book_delete_post_checks_dependents (store : Store) (bid : Oid) :
    (store.instances.filter (fun i => i.book == bid) ≠ [] →
      book_delete_post store bid
        = (store, .renderBookDelete "Delete"
            (store.books.find? (fun b => b._id == bid))
            (store.instances.filter (fun i => i.book == bid))))
    ∧ (store.instances.filter (fun i => i.book == bid) = [] →
      book_delete_post store bid
        = ({ store with books := store.books.filter (fun b => !(b._id == bid)) },
           .redirect "/catalog/books")) := by
  constructor
  · intro h
    simp [book_delete_post, List.length_pos.mpr h]
  · intro h
    simp [book_delete_post, h]

/-- C5: on a valid Genre create submission, if a stored genre already holds
the sanitized name, no new genre is persisted and the response redirects to
the existing genre's detail path; otherwise the candidate is appended to the
store and the response redirects to the new genre's detail path. -/
theorem genre_create_post_detects_duplicate (store : Store) (freshId : Oid)
    (raw : JsVal) (hv : (genreNameChain raw).2 = []) :
    (∀ g0 : Genre,
      store.genres.find? (fun g => g.name == sanitizedName raw) = some g0 →
      genre_create_post store freshId raw
        = (store, .redirect ("/catalog/genre/" ++ g0._id)))
    ∧ (store.genres.find? (fun g => g.name == sanitizedName raw) = none →
      genre_create_post store freshId raw
        = ({ store with genres := store.genres ++ [⟨freshId, sanitizedName raw⟩] },
           .redirect ("/catalog/genre/" ++ freshId))) := by
  constructor
  · intro g0 hfind
    rw [sanitizedName] at hfind
    simp [genre_create_post, Genre.url, hv, hfind]
  · intro hfind
    rw [sanitizedName] at hfind
    simp [genre_create_post, Genre.url, sanitizedName, hv, hfind]

/-- C3 (amended): on a valid Genre update submission, the conflict path
(re-fetching the original genre by id and re-rendering with the single
synthetic conflict error) is taken when and only when ANY stored genre —
including the one being updated — holds the submitted name; only when no
stored genre holds the name is the update persisted (with the original id)
and the redirect to the detail view issued. -/
theorem genre_update_conflict_iff_name_held (store : Store) (id : Oid)
    (raw : JsVal) (hv : (genreNameChain raw).2 = []) :
    (store.genres.any (fun g => g.name == sanitizedName raw) = true →
      genre_update_post store id raw
        = (store, .renderGenreForm "Update Genre"
            (store.genres.find? (fun g => g._id == id)) [genreConflictError]))
    ∧ (store.genres.any (fun g => g.name == sanitizedName raw) = false →
      ∀ g0 : Genre, store.genres.find? (fun g => g._id == id) = some g0 →
        genre_update_post store id raw
          = ({ store with genres := store.genres.map (fun g => if g._id == id then ⟨id, sanitizedName raw⟩ else g) },
             .redirect ("/catalog/genre/" ++ id))) := by
  constructor
  · intro hany
    have hsome : (store.genres.find? (fun g => g.name == sanitizedName raw)).isSome = true := by
      rw [List.find?_isSome]
      exact List.any_eq_true.mp hany
    obtain ⟨gf, hgf⟩ := Option.isSome_iff_exists.mp hsome
    rw [sanitizedName] at hgf
    simp [genre_update_post, hv, hgf]
  · intro hany g0 hg0
    have hnone := find?_eq_none_of_any_eq_false _ _ hany
    rw [sanitizedName] at hnone
    have hid : g0._id = id := by
      have := List.find?_some hg0
      simpa using this
    simp [genre_update_post, sanitizedName, hv, hnone, hg0, Genre.url, hid]

/-- C2: on a valid update submission, every implemented update workflow
builds the candidate with the original identifier from the request path and
persists it at that identifier — the Genre update replaces the genre at the
given id with a candidate carrying that id, the Book update does likewise,
and the BookInstance update handler is a stub that persists nothing and
generates no identifier. -/
theorem update_workflows_preserve_identifier (store : Store) (gid bid : Oid)
    (rawName : JsVal) (b : BookForm)
    (hg1 : (genreNameChain rawName).2 = [])
    (hg2 : store.genres.any (fun g => g.name == sanitizedName rawName) = false)
    (g0 : Genre) (hg3 : store.genres.find? (fun g => g._id == gid) = some g0)
    (hb1 : bookUpdateErrors b = [])
    (b0 : Book) (hb2 : store.books.find? (fun x => x._id == bid) = some b0) :
    genre_update_post store gid rawName
      = ({ store with genres := store.genres.map (fun g => if g._id == gid then ⟨gid, sanitizedName rawName⟩ else g) },
         .redirect ("/catalog/genre/" ++ gid))
    ∧ (bookUpdateCandidate bid b)._id = bid
    ∧ book_update_post store bid b
      = ({ store with books := store.books.map (fun x => if x._id == bid then bookUpdateCandidate bid b else x) },
         .redirect ("/catalog/book/" ++ bid))
    ∧ (∀ s : Store, ∀ i : Oid,
        bookinstance_update_post s i
          = (s, .send "NOT IMPLEMENTED: BookInstance update POST")) := by
  refine ⟨?_, rfl, ?_, fun _ _ => rfl⟩
  · have hnone := find?_eq_none_of_any_eq_false _ _ hg2
    rw [sanitizedName] at hnone
    have hid : g0._id = gid := by
      have := List.find?_some hg3
      simpa using this
    simp [genre_update_post, sanitizedName, hg1, hnone, hg3, Genre.url, hid]
  · have hid : b0._id = bid := by
      have := List.find?_some hb2
      simpa using this
    simp [book_update_post, hb1, hb2, Book.url, hid]

/-- C8: in the BookInstance create workflow, a falsy `due_back` (absent or
the empty string) skips the whole chain — no error, value left falsy, and on
an otherwise valid submission the persisted instance keeps it not provided;
a truthy value yields ValidationError due_back / Invalid date exactly when
it does not parse as an ISO-8601 date, and the parsed date otherwise. -/
theorem due_back_optional_falsy_iso8601 (v : JsVal) (store : Store)
    (fid : Oid) (f : BIForm) :
    (jsFalsy v = true →
      dueBackChain v = (v, []) ∧ jsFalsy (dueBackChain v).1 = true)
    ∧ (∀ s y m d, v = .str s → jsFalsy v = false →
        parseISO8601 s = some (y, m, d) → dueBackChain v = (.date y m d, []))
    ∧ (∀ s, v = .str s → jsFalsy v = false → parseISO8601 s = none →
        dueBackChain v = (.invalidDate, [⟨some "due_back", "Invalid date"⟩]))
    ∧ ((runChain "book" "Book must be specified" false
          [.trim, .isLengthMin 1, .escape] f.book).2 = [] →
       (runChain "imprint" "Imprint must be specified" false
          [.trim, .isLengthMin 1, .escape] f.imprint).2 = [] →
       jsFalsy f.due_back = true →
        bookinstance_create_post store fid f
          = ({ store with instances := store.instances ++ [bookinstanceCandidate fid f] },
             .redirect ("/catalog/bookinstance/" ++ fid))
        ∧ (bookinstanceCandidate fid f).due_back = f.due_back
        ∧ jsFalsy (bookinstanceCandidate fid f).due_back = true) := by
  refine ⟨?_, ?_, ?_, ?_⟩
  · intro h
    constructor
    · simp [dueBackChain, runChain, h]
    · simp [dueBackChain, runChain, h]
  · intro s y m d hvs hfalsy hparse
    subst hvs
    simp only [jsFalsy] at hfalsy
    simp [dueBackChain, runChain, runStep, strOf, jsFalsy, hfalsy, hparse]
  · intro s hvs hfalsy hparse
    subst hvs
    simp only [jsFalsy] at hfalsy
    simp [dueBackChain, runChain, runStep, strOf, jsFalsy, hfalsy, hparse]
  · intro h1 h2 h3
    have hdb : dueBackChain f.due_back = (f.due_back, []) := by
      simp [dueBackChain, runChain, h3]
    have herr : bookinstanceCreateErrors f = [] := by
      simp [bookinstanceCreateErrors, h1, h2, hdb]
    refine ⟨?_, ?_, ?_⟩
    · simp [bookinstance_create_post, herr, BookInstance.url, bookinstanceCandidate]
    · simp [bookinstanceCandidate, hdb]
    · simp [bookinstanceCandidate, hdb, h3]

/-- C10: the Genre delete POST removes the genre with the submitted id and
redirects to the genre list unconditionally — even when (as hypothesized
here) some stored Book still references that genre, the genre is removed,
the books are untouched, and the delete GET confirmation view is what
fetches and displays the referencing books (with authors resolved). -/
theorem genre_delete_post_ignores_referencing_books (store : Store) (gid : Oid)
    (_href : store.books.any (fun b => b.genre.contains gid) = true) :
    genre_delete_post store gid
      = ({ store with genres := store.genres.filter (fun g => !(g._id == gid)) },
         .redirect "/catalog/genres")
    ∧ (genre_delete_post store gid).1.books = store.books
    ∧ (genre_delete_post store gid).1.genres.all (fun g => !(g._id == gid)) = true
    ∧ genre_delete_get store gid
      = [.renderGenreDelete (store.genres.find? (fun g => g._id == gid))
          ((store.books.filter (fun b => b.genre.contains gid)).map
            (fun b => (b, store.authors.find? (fun a => a._id == b.author))))] := by
  refine ⟨rfl, rfl, ?_, rfl⟩
  rw [List.all_eq_true]
  intro g hg
  exact (List.mem_filter.mp hg).2

/-- Witness for the Book-delete dependents theorem: one instance references
b1 and the deletion is refused on that store. -/
theorem book_delete_post_checks_dependents_witness :
    storeBookWithInstance.instances.filter (fun i => i.book == "b1") ≠ []
    ∧ book_delete_post storeBookWithInstance "b1"
      = (storeBookWithInstance, .renderBookDelete "Delete"
          (storeBookWithInstance.books.find? (fun b => b._id == "b1"))
          (storeBookWithInstance.instances.filter (fun i => i.book == "b1"))) :=
  ⟨by decide,
   (book_delete_post_checks_dependents storeBookWithInstance "b1").1 (by decide)⟩

/-- Witness for the Genre-create duplicate theorem: creating "Fiction" when
g1 already holds that name leaves the store unchanged and redirects to g1. -/
theorem genre_create_post_detects_duplicate_witness :
    (genreNameChain (.str "Fiction")).2 = []
    ∧ storeFiction.genres.find? (fun g => g.name == sanitizedName (.str "Fiction"))
        = some ⟨"g1", "Fiction"⟩
    ∧ genre_create_post storeFiction "g9" (.str "Fiction")
      = (storeFiction, .redirect ("/catalog/genre/" ++ "g1")) :=
  ⟨by decide, by decide,
   (genre_create_post_detects_duplicate storeFiction "g9" (.str "Fiction")
     (by decide)).1 ⟨"g1", "Fiction"⟩ (by decide)⟩

/-- Witness for the Genre-update conflict theorem: renaming g2 to "Fiction"
while g1 holds that name takes the conflict path. -/
theorem genre_update_conflict_iff_name_held_witness :
    (genreNameChain (.str "Fiction")).2 = []
    ∧ storeTwoGenres.genres.any (fun g => g.name == sanitizedName (.str "Fiction")) = true
    ∧ genre_update_post storeTwoGenres "g2" (.str "Fiction")
      = (storeTwoGenres, .renderGenreForm "Update Genre"
          (storeTwoGenres.genres.find? (fun g => g._id == "g2")) [genreConflictError]) :=
  ⟨by decide, by decide,
   (genre_update_conflict_iff_name_held storeTwoGenres "g2" (.str "Fiction")
     (by decide)).1 (by decide)⟩

/-- Witness for the identifier-preservation theorem: valid Genre and Book
updates on a concrete store persist at the original g1 / b1 identifiers. -/
theorem update_workflows_preserve_identifier_witness :
    (genreNameChain (.str "NewName")).2 = []
    ∧ storeOneBook.genres.any (fun g => g.name == sanitizedName (.str "NewName")) = false
    ∧ storeOneBook.genres.find? (fun g => g._id == "g1") = some ⟨"g1", "Old"⟩
    ∧ bookUpdateErrors bookFormValid = []
    ∧ storeOneBook.books.find? (fun x => x._id == "b1")
        = some ⟨"b1", "Old Title", "a1", "Old summary", "1234567890", ["g1"]⟩
    ∧ genre_update_post storeOneBook "g1" (.str "NewName")
      = ({ storeOneBook with genres := storeOneBook.genres.map (fun g => if g._id == "g1" then ⟨"g1", sanitizedName (.str "NewName")⟩ else g) },
         .redirect ("/catalog/genre/" ++ "g1"))
    ∧ book_update_post storeOneBook "b1" bookFormValid
      = ({ storeOneBook with books := storeOneBook.books.map (fun x => if x._id == "b1" then bookUpdateCandidate "b1" bookFormValid else x) },
         .redirect ("/catalog/book/" ++ "b1")) := by
  have h := update_workflows_preserve_identifier storeOneBook "g1" "b1"
    (.str "NewName") bookFormValid (by decide) (by decide) ⟨"g1", "Old"⟩ (by decide)
    (by decide) ⟨"b1", "Old Title", "a1", "Old summary", "1234567890", ["g1"]⟩ (by decide)
  exact ⟨by decide, by decide, by decide, by decide, by decide, h.1, h.2.2.1⟩

/-- Witness for the due_back theorem: an empty due date on an otherwise
valid submission produces no error and the saved instance keeps it unset. -/
theorem due_back_optional_falsy_iso8601_witness :
    jsFalsy (JsVal.str "") = true
    ∧ dueBackChain (.str "") = (.str "", [])
    ∧ (runChain "book" "Book must be specified" false
        [.trim, .isLengthMin 1, .escape] biFormEmptyDue.book).2 = []
    ∧ (runChain "imprint" "Imprint must be specified" false
        [.trim, .isLengthMin 1, .escape] biFormEmptyDue.imprint).2 = []
    ∧ jsFalsy biFormEmptyDue.due_back = true
    ∧ bookinstance_create_post storeEmpty "i1" biFormEmptyDue
      = ({ storeEmpty with instances := storeEmpty.instances ++ [bookinstanceCandidate "i1" biFormEmptyDue] },
         .redirect ("/catalog/bookinstance/" ++ "i1"))
    ∧ jsFalsy (bookinstanceCandidate "i1" biFormEmptyDue).due_back = true := by
  have h := due_back_optional_falsy_iso8601 (JsVal.str "") storeEmpty "i1" biFormEmptyDue
  exact ⟨by decide, (h.1 (by decide)).1, by decide, by decide, by decide,
    (h.2.2.2 (by decide) (by decide) (by decide)).1,
    (h.2.2.2 (by decide) (by decide) (by decide)).2.2⟩

/-- Witness for the unconditional Genre-delete theorem: g1 is referenced by
an existing book yet is removed, with the books untouched. -/
theorem genre_delete_post_ignores_referencing_books_witness :
    storeGenreReferenced.books.any (fun b => b.genre.contains "g1") = true
    ∧ genre_delete_post storeGenreReferenced "g1"
      = ({ storeGenreReferenced with genres := storeGenreReferenced.genres.filter (fun g => !(g._id == "g1")) },
         .redirect "/catalog/genres")
    ∧ (genre_delete_post storeGenreReferenced "g1").1.genres.all (fun g => !(g._id == "g1")) = true :=
  ⟨by decide,
   (genre_delete_post_ignores_referencing_books storeGenreReferenced "g1" (by decide)).1,
   (genre_delete_post_ignores_referencing_books storeGenreReferenced "g1" (by decide)).2.2.1⟩

end LocalLibrary
